import Mathlib

/-!
# mesme: the main-window shell `mm::MainWindow`

Shallow embedding of `src/ui/mmMainWindow.h` and `src/ui/mmMainWindow.cpp`.

The repository's only code is the constructor

    MainWindow::MainWindow(QGuiApplication& app)
      : app_(app), view_(QUrl("qrc:/ui/mmMainWindow.qml"))
    {
      view_.show();
    }

on `class MainWindow : QObject`.

Objects live in a `World`: application objects and windows are kept in stores
and a C++ reference is the index of the object in its store.  The two calls
the constructor makes on its display surface (`QQuickView::QQuickView(const
QUrl&)` and `show()`) belong to the GUI toolkit, which is not part of the
repository; their behaviour is a parameter (`Toolkit`) of the embedding, and
each call may raise.  The constructor keeps the effects it already had when a
call raises, so it returns the world together with the outcome.

The world keeps two logs.  `trace` holds the requests made to display
surfaces.  `calls` holds every call into the toolkit, in order, one entry for
each base or member initialisation, each statement of the body and each
destructor run when a construction is abandoned: besides the two requests it
has the initialisation of the `QObject` base, which C++ runs before the member
initialisers, and the destructors of the sub-objects already built when a call
raises.  Evaluating the argument `QUrl("qrc:/ui/mmMainWindow.qml")` belongs to
the entry of the call it is the argument of.  A toolkit call and its log
entries are made by one function, so the constructor cannot call without
logging or log without calling.
-/

set_option linter.dupNamespace false

namespace mm

/-- Value of a `QUrl`: the string it was built from. -/
structure QUrl where
  url : String
deriving DecidableEq, Repr

/-- Observable state of a `QQuickView` display surface: the source it was asked
to load and whether it is shown. -/
structure QQuickView where
  source : QUrl
  visible : Bool
deriving DecidableEq, Repr

/-- Data members of `class MainWindow` (mmMainWindow.h, lines 22-23): `app_` is
a `QGuiApplication&`, held as the index of the application object in the
world; `view_` is a `QQuickView` held by value.  The private `QObject` base
carries no member of this class. -/
structure MainWindow where
  app_ : Nat
  view_ : QQuickView
deriving DecidableEq, Repr

/-- Requests the constructor can issue to its display surface. -/
inductive Action where
  | newQQuickView (source : QUrl)
  | showView
deriving DecidableEq, Repr

/-- Calls into the toolkit made while a `MainWindow` is constructed:
`QObject::QObject()` for the base of `class MainWindow : QObject`, a request to
the display surface `view_`, and the destructors `~QQuickView()` and
`~QObject()` that C++ runs on the sub-objects already built when the
construction is abandoned. -/
inductive Call where
  | newQObject
  | onView (request : Action)
  | deleteQQuickView
  | deleteQObject
deriving DecidableEq, Repr

/-- Behaviour of the toolkit calls used by the constructor.  `newQQuickView`
stands for `QQuickView::QQuickView(const QUrl&)` and `showView` for
`QQuickView::show()`; either may raise an error of type `ε`. -/
structure Toolkit (ε : Type) where
  newQQuickView : QUrl → Except ε QQuickView
  showView : QQuickView → Except ε QQuickView

/-- Program state: the application objects (of an arbitrary type `App`), the
constructed windows, the requests issued to display surfaces so far, and all
the calls made into the toolkit so far. -/
structure World (App : Type) where
  apps : List App
  windows : List MainWindow
  trace : List Action
  calls : List Call

/-- Append one request to the display surface to both logs. -/
def World.record {App : Type} (w : World App) (a : Action) : World App :=
  { w with trace := w.trace ++ [a], calls := w.calls ++ [Call.onView a] }

/-- Append one call that is not a request to a display surface. -/
def World.call {App : Type} (w : World App) (c : Call) : World App :=
  { w with calls := w.calls ++ [c] }

/-- The call `QObject::QObject()`. -/
def World.newQObject {App : Type} (w : World App) : World App :=
  w.call Call.newQObject

/-- The call `QQuickView::QQuickView(const QUrl&)`: logged, then answered by
the toolkit. -/
def World.newQQuickView {ε App : Type} (w : World App) (tk : Toolkit ε) (source : QUrl) :
    Except ε QQuickView × World App :=
  (tk.newQQuickView source, w.record (Action.newQQuickView source))

/-- The call `QQuickView::show()`: logged, then answered by the toolkit. -/
def World.showView {ε App : Type} (w : World App) (tk : Toolkit ε) (view : QQuickView) :
    Except ε QQuickView × World App :=
  (tk.showView view, w.record Action.showView)

/-- The call `QQuickView::~QQuickView()`. -/
def World.deleteQQuickView {App : Type} (w : World App) : World App :=
  w.call Call.deleteQQuickView

/-- The call `QObject::~QObject()`. -/
def World.deleteQObject {App : Type} (w : World App) : World App :=
  w.call Call.deleteQObject

/-- Embedding of `MainWindow::MainWindow(QGuiApplication& app)`
(mmMainWindow.cpp, lines 6-10, on `class MainWindow : QObject`,
mmMainWindow.h, line 12).  Returns the index of the new window, or the error
raised by the toolkit, together with the world it leaves.  When a call raises,
the sub-objects already built are destroyed in reverse order and the error
goes on to the caller. -/
def MainWindow.MainWindow {ε App : Type} (tk : Toolkit ε) (app : Nat) (w : World App) :
    Except ε Nat × World App :=
  -- class MainWindow : QObject -- the base, absent from the initialiser list,
  -- is default-initialised first
  let w0 := w.newQObject
  -- : app_(app)
  let app_ := app
  -- , view_(QUrl("qrc:/ui/mmMainWindow.qml"))
  match w0.newQQuickView tk (QUrl.mk "qrc:/ui/mmMainWindow.qml") with
  | (.error e, w1) => (.error e, w1.deleteQObject)
  | (.ok view, w1) =>
    -- view_.show();
    match w1.showView tk view with
    | (.error e, w2) => (.error e, w2.deleteQQuickView.deleteQObject)
    | (.ok view_, w2) =>
      (.ok w2.windows.length,
        { w2 with windows := w2.windows ++ [{ app_ := app_, view_ := view_ }] })

/-- Window a construction outcome refers to, if the construction completed. -/
def built {ε App : Type} (r : Except ε Nat × World App) : Option mm.MainWindow :=
  match r.1 with
  | .ok ref => r.2.windows[ref]?
  | .error _ => none

/-- Requests a construction started in `w` added to the trace. -/
def requested {ε App : Type} (w : World App) (r : Except ε Nat × World App) : List Action :=
  r.2.trace.drop w.trace.length

/-- Contract of the toolkit calls on their successful results: a surface
created from a URL has that URL as its source, and `show()` keeps the source
and leaves the surface visible. -/
def Toolkit.Lawful {ε : Type} (tk : Toolkit ε) : Prop :=
  (∀ u v, tk.newQQuickView u = .ok v → v.source = u) ∧
  (∀ v v', tk.showView v = .ok v' → v'.source = v.source ∧ v'.visible = true)

/-- Toolkit whose calls never raise. -/
def Toolkit.NoThrow {ε : Type} (tk : Toolkit ε) : Prop :=
  (∀ u, ∃ v, tk.newQQuickView u = .ok v) ∧ (∀ v, ∃ v', tk.showView v = .ok v')

/-- Reference toolkit: a new surface is hidden and has the given source,
`show()` makes it visible, and nothing raises. -/
def qt {ε : Type} : Toolkit ε where
  newQQuickView := fun u => .ok { source := u, visible := false }
  showView := fun v => .ok { v with visible := true }

/-- Toolkit whose surface constructor raises. -/
def missingResource : Toolkit String where
  newQQuickView := fun u => .error ("cannot load " ++ u.url)
  showView := fun v => .ok { v with visible := true }

/-- Toolkit whose `show()` raises. -/
def noScreen : Toolkit String where
  newQQuickView := fun u => .ok { source := u, visible := false }
  showView := fun _ => .error "no screen"

/-- Sources of the surface-creation requests in a list of requests. -/
def loaded : List Action → List QUrl
  | [] => []
  | Action.newQQuickView u :: rest => u :: loaded rest
  | Action.showView :: rest => loaded rest

/-- One application object and nothing else. -/
def world0 : World String := ⟨["mesme"], [], [], []⟩

/-! ## Unfolding the constructor -/

section lemmas

variable {ε App : Type}

theorem construct_load_error (tk : Toolkit ε) (app : Nat) (w : World App) (e : ε)
    (h : tk.newQQuickView ⟨"qrc:/ui/mmMainWindow.qml"⟩ = .error e) :
    MainWindow.MainWindow tk app w =
      (.error e, ⟨w.apps, w.windows,
        w.trace ++ [Action.newQQuickView ⟨"qrc:/ui/mmMainWindow.qml"⟩],
          w.calls ++ [Call.newQObject,
            Call.onView (Action.newQQuickView ⟨"qrc:/ui/mmMainWindow.qml"⟩),
            Call.deleteQObject]⟩) := by
  simp [MainWindow.MainWindow, World.newQObject, World.newQQuickView, World.showView,
    World.deleteQQuickView, World.deleteQObject, World.call, World.record, h]

theorem construct_show_error (tk : Toolkit ε) (app : Nat) (w : World App) (v : QQuickView)
    (e : ε) (h : tk.newQQuickView ⟨"qrc:/ui/mmMainWindow.qml"⟩ = .ok v)
    (hs : tk.showView v = .error e) :
    MainWindow.MainWindow tk app w =
      (.error e, ⟨w.apps, w.windows,
        w.trace ++ [Action.newQQuickView ⟨"qrc:/ui/mmMainWindow.qml"⟩, Action.showView],
        w.calls ++ [Call.newQObject,
          Call.onView (Action.newQQuickView ⟨"qrc:/ui/mmMainWindow.qml"⟩),
          Call.onView Action.showView, Call.deleteQQuickView, Call.deleteQObject]⟩) := by
  simp [MainWindow.MainWindow, World.newQObject, World.newQQuickView, World.showView,
    World.deleteQQuickView, World.deleteQObject, World.call, World.record, h, hs]

theorem construct_ok (tk : Toolkit ε) (app : Nat) (w : World App) (v v' : QQuickView)
    (h : tk.newQQuickView ⟨"qrc:/ui/mmMainWindow.qml"⟩ = .ok v)
    (hs : tk.showView v = .ok v') :
    MainWindow.MainWindow tk app w =
      (.ok w.windows.length, ⟨w.apps, w.windows ++ [⟨app, v'⟩],
        w.trace ++ [Action.newQQuickView ⟨"qrc:/ui/mmMainWindow.qml"⟩, Action.showView],
          w.calls ++ [Call.newQObject,
            Call.onView (Action.newQQuickView ⟨"qrc:/ui/mmMainWindow.qml"⟩),
            Call.onView Action.showView]⟩) := by
  simp [MainWindow.MainWindow, World.newQObject, World.newQQuickView, World.showView,
    World.deleteQQuickView, World.deleteQObject, World.call, World.record, h, hs]

/-- The three ways a construction can end. -/
theorem construct_cases (tk : Toolkit ε) (app : Nat) (w : World App) :
    (∃ e, tk.newQQuickView ⟨"qrc:/ui/mmMainWindow.qml"⟩ = .error e ∧
      MainWindow.MainWindow tk app w =
        (.error e, ⟨w.apps, w.windows,
          w.trace ++ [Action.newQQuickView ⟨"qrc:/ui/mmMainWindow.qml"⟩],
          w.calls ++ [Call.newQObject,
            Call.onView (Action.newQQuickView ⟨"qrc:/ui/mmMainWindow.qml"⟩),
            Call.deleteQObject]⟩)) ∨
    (∃ v e, tk.newQQuickView ⟨"qrc:/ui/mmMainWindow.qml"⟩ = .ok v ∧ tk.showView v = .error e ∧
      MainWindow.MainWindow tk app w =
        (.error e, ⟨w.apps, w.windows,
          w.trace ++ [Action.newQQuickView ⟨"qrc:/ui/mmMainWindow.qml"⟩, Action.showView],
          w.calls ++ [Call.newQObject,
            Call.onView (Action.newQQuickView ⟨"qrc:/ui/mmMainWindow.qml"⟩),
            Call.onView Action.showView, Call.deleteQQuickView, Call.deleteQObject]⟩)) ∨
    (∃ v v', tk.newQQuickView ⟨"qrc:/ui/mmMainWindow.qml"⟩ = .ok v ∧ tk.showView v = .ok v' ∧
      MainWindow.MainWindow tk app w =
        (.ok w.windows.length, ⟨w.apps, w.windows ++ [⟨app, v'⟩],
          w.trace ++ [Action.newQQuickView ⟨"qrc:/ui/mmMainWindow.qml"⟩, Action.showView],
          w.calls ++ [Call.newQObject,
            Call.onView (Action.newQQuickView ⟨"qrc:/ui/mmMainWindow.qml"⟩),
            Call.onView Action.showView]⟩)) := by
  cases h : tk.newQQuickView ⟨"qrc:/ui/mmMainWindow.qml"⟩ with
  | error e => exact Or.inl ⟨e, rfl, construct_load_error tk app w e h⟩
  | ok v =>
    cases hs : tk.showView v with
    | error e => exact Or.inr (Or.inl ⟨v, e, rfl, hs, construct_show_error tk app w v e h hs⟩)
    | ok v' => exact Or.inr (Or.inr ⟨v, v', rfl, hs, construct_ok tk app w v v' h hs⟩)

/-- Existing windows keep their slot and their state. -/
theorem construct_windows_frame (tk : Toolkit ε) (app : Nat) (w : World App) (i : Nat)
    (hi : i < w.windows.length) :
    (MainWindow.MainWindow tk app w).2.windows[i]? = w.windows[i]? := by
  rcases construct_cases tk app w with ⟨e, -, h⟩ | ⟨v, e, -, -, h⟩ | ⟨v, v', -, -, h⟩
  · rw [h]
  · rw [h]
  · rw [h]; exact List.getElem?_append_left hi

theorem built_ok (tk : Toolkit ε) (app : Nat) (w : World App) (v v' : QQuickView)
    (h : tk.newQQuickView ⟨"qrc:/ui/mmMainWindow.qml"⟩ = .ok v)
    (hs : tk.showView v = .ok v') :
    built (MainWindow.MainWindow tk app w) = some ⟨app, v'⟩ := by
  rw [construct_ok tk app w v v' h hs]
  simp [built]

theorem built_some (tk : Toolkit ε) (app : Nat) (w : World App) (win : mm.MainWindow)
    (h : built (MainWindow.MainWindow tk app w) = some win) :
    ∃ v v', tk.newQQuickView ⟨"qrc:/ui/mmMainWindow.qml"⟩ = .ok v ∧ tk.showView v = .ok v' ∧
      win = ⟨app, v'⟩ := by
  rcases construct_cases tk app w with ⟨e, -, hc⟩ | ⟨v, e, -, -, hc⟩ | ⟨v, v', hv, hs, hc⟩
  · rw [hc] at h; simp [built] at h
  · rw [hc] at h; simp [built] at h
  · rw [built_ok tk app w v v' hv hs] at h
    exact ⟨v, v', hv, hs, (Option.some.inj h).symm⟩

/-- Requests of one construction: the creation alone when it raised, the
creation followed by the show request otherwise. -/
theorem requested_cases (tk : Toolkit ε) (app : Nat) (w : World App) :
    ((∃ e, tk.newQQuickView ⟨"qrc:/ui/mmMainWindow.qml"⟩ = .error e) ∧
      requested w (MainWindow.MainWindow tk app w) =
        [Action.newQQuickView ⟨"qrc:/ui/mmMainWindow.qml"⟩]) ∨
    ((∃ v, tk.newQQuickView ⟨"qrc:/ui/mmMainWindow.qml"⟩ = .ok v) ∧
      requested w (MainWindow.MainWindow tk app w) =
        [Action.newQQuickView ⟨"qrc:/ui/mmMainWindow.qml"⟩, Action.showView]) := by
  rcases construct_cases tk app w with ⟨e, he, h⟩ | ⟨v, e, hv, -, h⟩ | ⟨v, v', hv, -, h⟩
  · exact Or.inl ⟨⟨e, he⟩, by rw [h]; simp [requested]⟩
  · exact Or.inr ⟨⟨v, hv⟩, by rw [h]; simp [requested]⟩
  · exact Or.inr ⟨⟨v, hv⟩, by rw [h]; simp [requested]⟩

theorem construct_apps (tk : Toolkit ε) (app : Nat) (w : World App) :
    (MainWindow.MainWindow tk app w).2.apps = w.apps := by
  rcases construct_cases tk app w with ⟨e, -, h⟩ | ⟨v, e, -, -, h⟩ | ⟨v, v', -, -, h⟩ <;> rw [h]

/-- A toolkit that never raises completes every construction. -/
theorem construct_of_noThrow (tk : Toolkit ε) (hnt : tk.NoThrow) (app : Nat) (w : World App) :
    ∃ v v', tk.newQQuickView ⟨"qrc:/ui/mmMainWindow.qml"⟩ = .ok v ∧ tk.showView v = .ok v' ∧
      MainWindow.MainWindow tk app w =
        (.ok w.windows.length, ⟨w.apps, w.windows ++ [⟨app, v'⟩],
          w.trace ++ [Action.newQQuickView ⟨"qrc:/ui/mmMainWindow.qml"⟩, Action.showView],
          w.calls ++ [Call.newQObject,
            Call.onView (Action.newQQuickView ⟨"qrc:/ui/mmMainWindow.qml"⟩),
            Call.onView Action.showView]⟩) := by
  obtain ⟨v, hv⟩ := hnt.1 ⟨"qrc:/ui/mmMainWindow.qml"⟩
  obtain ⟨v', hs⟩ := hnt.2 v
  exact ⟨v, v', hv, hs, construct_ok tk app w v v' hv hs⟩

/-- Under the toolkit contract the surface stored by a completed construction
is the fixed source, shown. -/
theorem lawful_view (tk : Toolkit ε) (hlaw : tk.Lawful) (v v' : QQuickView)
    (hv : tk.newQQuickView ⟨"qrc:/ui/mmMainWindow.qml"⟩ = .ok v) (hs : tk.showView v = .ok v') :
    v' = ⟨⟨"qrc:/ui/mmMainWindow.qml"⟩, true⟩ := by
  have h1 := hlaw.1 _ _ hv
  obtain ⟨h2, h3⟩ := hlaw.2 _ _ hs
  cases v' with
  | mk s b =>
    simp only at h2 h3
    rw [h2, h1, h3]

theorem qt_lawful : (qt : Toolkit ε).Lawful := by
  constructor
  · intro u v h
    cases h
    rfl
  · intro v v' h
    cases h
    exact ⟨rfl, rfl⟩

theorem qt_noThrow : (qt : Toolkit ε).NoThrow :=
  ⟨fun _ => ⟨_, rfl⟩, fun _ => ⟨_, rfl⟩⟩

end lemmas


/-! ## The claims -/

section claims

variable {ε App : Type}

/-- C1: for every application reference, a construction that completes leaves
the window with a visible display surface; whenever the surface has been
created the show request is issued, with nothing able to skip it; and with a
toolkit that does not raise the construction always completes. -/
theorem view_visible_after_construction (tk : Toolkit ε) (hlaw : tk.Lawful) (app : Nat)
    (w : World App) :
    (∀ win, built (MainWindow.MainWindow tk app w) = some win → win.view_.visible = true) ∧
    (∀ v, tk.newQQuickView ⟨"qrc:/ui/mmMainWindow.qml"⟩ = .ok v →
      Action.showView ∈ requested w (MainWindow.MainWindow tk app w)) ∧
    (tk.NoThrow →
      ∃ win, built (MainWindow.MainWindow tk app w) = some win ∧ win.view_.visible = true ∧
        Action.showView ∈ requested w (MainWindow.MainWindow tk app w)) := by
  have hshow : ∀ v, tk.newQQuickView ⟨"qrc:/ui/mmMainWindow.qml"⟩ = .ok v →
      Action.showView ∈ requested w (MainWindow.MainWindow tk app w) := by
    intro v hv
    rcases requested_cases tk app w with ⟨⟨e, he⟩, -⟩ | ⟨-, hr⟩
    · rw [hv] at he; cases he
    · rw [hr]; simp
  refine ⟨?_, hshow, ?_⟩
  · intro win hwin
    obtain ⟨v, v', hv, hs, rfl⟩ := built_some tk app w win hwin
    rw [lawful_view tk hlaw v v' hv hs]
  · intro hnt
    obtain ⟨v, v', hv, hs, -⟩ := construct_of_noThrow tk hnt app w
    refine ⟨⟨app, v'⟩, built_ok tk app w v v' hv hs, ?_, hshow v hv⟩
    rw [lawful_view tk hlaw v v' hv hs]

/-- Witness of C1 on the reference toolkit: the first window of `world0` is
built and visible. -/
theorem view_visible_after_construction_witness :
    ∃ win, built (MainWindow.MainWindow (qt : Toolkit String) 0 world0) = some win ∧
      win.view_.visible = true ∧
      Action.showView ∈ requested world0 (MainWindow.MainWindow (qt : Toolkit String) 0 world0) :=
  (view_visible_after_construction (qt : Toolkit String) qt_lawful 0 world0).2.2 qt_noThrow

/-- C2: every construction asks for exactly one source, the fixed URL
`qrc:/ui/mmMainWindow.qml`, whatever the toolkit, the application reference
and the world; two constructions on any two application references ask for
the same source; and the surface of a completed construction has that source. -/
theorem loaded_source_fixed (tk : Toolkit ε) (a b : Nat) (wa wb : World App) :
    loaded (requested wa (MainWindow.MainWindow tk a wa)) = [⟨"qrc:/ui/mmMainWindow.qml"⟩] ∧
    loaded (requested wa (MainWindow.MainWindow tk a wa)) =
      loaded (requested wb (MainWindow.MainWindow tk b wb)) ∧
    (tk.Lawful → ∀ win, built (MainWindow.MainWindow tk a wa) = some win →
      win.view_.source = ⟨"qrc:/ui/mmMainWindow.qml"⟩) := by
  have key : ∀ (c : Nat) (wc : World App),
      loaded (requested wc (MainWindow.MainWindow tk c wc)) = [⟨"qrc:/ui/mmMainWindow.qml"⟩] := by
    intro c wc
    rcases requested_cases tk c wc with ⟨-, hr⟩ | ⟨-, hr⟩ <;> rw [hr] <;> rfl
  refine ⟨key a wa, by rw [key a wa, key b wb], ?_⟩
  intro hlaw win hwin
  obtain ⟨v, v', hv, hs, rfl⟩ := built_some tk a wa win hwin
  rw [lawful_view tk hlaw v v' hv hs]

/-- Witness of C2 on the reference toolkit: the one source asked for, and the
source of the window built, are the fixed URL. -/
theorem loaded_source_fixed_witness :
    loaded (requested world0 (MainWindow.MainWindow (qt : Toolkit String) 0 world0)) =
      [⟨"qrc:/ui/mmMainWindow.qml"⟩] ∧
    (built (MainWindow.MainWindow (qt : Toolkit String) 0 world0)).map (fun win => win.view_.source)
      = some ⟨"qrc:/ui/mmMainWindow.qml"⟩ :=
  ⟨(loaded_source_fixed (qt : Toolkit String) 0 0 world0 world0).1,
    congrArg some
      ((loaded_source_fixed (qt : Toolkit String) 0 0 world0 world0).2.2 qt_lawful
        ⟨0, ⟨⟨"qrc:/ui/mmMainWindow.qml"⟩, true⟩⟩ rfl)⟩

/-- C3: with a toolkit that keeps its contract and does not raise, two
constructions in a row on the same application reference give two distinct
windows, each visible, each with source `qrc:/ui/mmMainWindow.qml`, each
holding the application reference; the second construction leaves the first
window, and every window that existed before it, as it was. -/
theorem two_windows_independent (tk : Toolkit ε) (hlaw : tk.Lawful) (hnt : tk.NoThrow)
    (app : Nat) (w : World App) :
    ∃ ref1 ref2 : Nat,
      (MainWindow.MainWindow tk app w).1 = .ok ref1 ∧
      (MainWindow.MainWindow tk app (MainWindow.MainWindow tk app w).2).1 = .ok ref2 ∧
      ref1 ≠ ref2 ∧
      (MainWindow.MainWindow tk app w).2.windows[ref1]? =
        some ⟨app, ⟨⟨"qrc:/ui/mmMainWindow.qml"⟩, true⟩⟩ ∧
      (MainWindow.MainWindow tk app (MainWindow.MainWindow tk app w).2).2.windows[ref1]? =
        some ⟨app, ⟨⟨"qrc:/ui/mmMainWindow.qml"⟩, true⟩⟩ ∧
      (MainWindow.MainWindow tk app (MainWindow.MainWindow tk app w).2).2.windows[ref2]? =
        some ⟨app, ⟨⟨"qrc:/ui/mmMainWindow.qml"⟩, true⟩⟩ ∧
      (∀ i, i < (MainWindow.MainWindow tk app w).2.windows.length →
        (MainWindow.MainWindow tk app (MainWindow.MainWindow tk app w).2).2.windows[i]? =
          (MainWindow.MainWindow tk app w).2.windows[i]?) := by
  obtain ⟨v, v', hv, hs, h1⟩ := construct_of_noThrow tk hnt app w
  have hview := lawful_view tk hlaw v v' hv hs
  subst hview
  have h2 := construct_ok tk app (MainWindow.MainWindow tk app w).2 v _ hv hs
  refine ⟨w.windows.length, w.windows.length + 1, ?_, ?_, by omega, ?_, ?_, ?_, ?_⟩
  · rw [h1]
  · rw [h2, h1]; simp
  · rw [h1]; simp
  · rw [construct_windows_frame tk app _ _ (by rw [h1]; simp), h1]; simp
  · have hb := built_ok tk app (MainWindow.MainWindow tk app w).2 v _ hv hs
    rw [built, h2] at hb
    rw [h2]
    simpa [h1] using hb
  · intro i hi
    exact construct_windows_frame tk app _ i hi

/-- Witness of C3 on the reference toolkit, starting from `world0`. -/
theorem two_windows_independent_witness :
    ∃ ref1 ref2 : Nat,
      (MainWindow.MainWindow (qt : Toolkit String) 0 world0).1 = .ok ref1 ∧
      (MainWindow.MainWindow (qt : Toolkit String) 0
        (MainWindow.MainWindow (qt : Toolkit String) 0 world0).2).1 = .ok ref2 ∧
      ref1 ≠ ref2 ∧
      (MainWindow.MainWindow (qt : Toolkit String) 0 world0).2.windows[ref1]? =
        some ⟨0, ⟨⟨"qrc:/ui/mmMainWindow.qml"⟩, true⟩⟩ ∧
      (MainWindow.MainWindow (qt : Toolkit String) 0
        (MainWindow.MainWindow (qt : Toolkit String) 0 world0).2).2.windows[ref1]? =
        some ⟨0, ⟨⟨"qrc:/ui/mmMainWindow.qml"⟩, true⟩⟩ ∧
      (MainWindow.MainWindow (qt : Toolkit String) 0
        (MainWindow.MainWindow (qt : Toolkit String) 0 world0).2).2.windows[ref2]? =
        some ⟨0, ⟨⟨"qrc:/ui/mmMainWindow.qml"⟩, true⟩⟩ ∧
      (∀ i, i < (MainWindow.MainWindow (qt : Toolkit String) 0 world0).2.windows.length →
        (MainWindow.MainWindow (qt : Toolkit String) 0
          (MainWindow.MainWindow (qt : Toolkit String) 0 world0).2).2.windows[i]? =
          (MainWindow.MainWindow (qt : Toolkit String) 0 world0).2.windows[i]?) :=
  two_windows_independent (qt : Toolkit String) qt_lawful qt_noThrow 0 world0

/-- C4: construction leaves the application objects as they were, whatever
the toolkit does and whether or not it raises; the window built holds the
reference it was given; and every request issued is one of the two requests
to the display surface, none to the application. -/
theorem application_unchanged (tk : Toolkit ε) (app : Nat) (w : World App) :
    (MainWindow.MainWindow tk app w).2.apps = w.apps ∧
    (∀ win, built (MainWindow.MainWindow tk app w) = some win → win.app_ = app) ∧
    (∀ a ∈ requested w (MainWindow.MainWindow tk app w),
      a = Action.newQQuickView ⟨"qrc:/ui/mmMainWindow.qml"⟩ ∨ a = Action.showView) := by
  refine ⟨construct_apps tk app w, ?_, ?_⟩
  · intro win hwin
    obtain ⟨v, v', -, -, rfl⟩ := built_some tk app w win hwin
    rfl
  · intro a ha
    rcases requested_cases tk app w with ⟨-, hr⟩ | ⟨-, hr⟩
    · rw [hr] at ha
      exact Or.inl (List.mem_singleton.mp ha)
    · rw [hr] at ha
      simpa using ha

/-- Witness of C4: the window built on `world0` holds reference 0 and the
application store still is the one application. -/
theorem application_unchanged_witness :
    (MainWindow.MainWindow (qt : Toolkit String) 0 world0).2.apps = ["mesme"] ∧
    (built (MainWindow.MainWindow (qt : Toolkit String) 0 world0)).map (fun win => win.app_)
      = some 0 :=
  ⟨(application_unchanged (qt : Toolkit String) 0 world0).1,
    congrArg some
      ((application_unchanged (qt : Toolkit String) 0 world0).2.1
        ⟨0, ⟨⟨"qrc:/ui/mmMainWindow.qml"⟩, true⟩⟩ rfl)⟩

/-- C5: the constructor has no error of its own and hides none: it fails
exactly when one of its two toolkit calls raises, with the very error that
call raised; when neither raises it returns the new window; and a failed
construction adds no window. -/
theorem no_error_path_of_its_own (tk : Toolkit ε) (app : Nat) (w : World App) :
    (∀ e, (MainWindow.MainWindow tk app w).1 = .error e →
      tk.newQQuickView ⟨"qrc:/ui/mmMainWindow.qml"⟩ = .error e ∨
      ∃ v, tk.newQQuickView ⟨"qrc:/ui/mmMainWindow.qml"⟩ = .ok v ∧ tk.showView v = .error e) ∧
    (∀ e, tk.newQQuickView ⟨"qrc:/ui/mmMainWindow.qml"⟩ = .error e →
      (MainWindow.MainWindow tk app w).1 = .error e) ∧
    (∀ v e, tk.newQQuickView ⟨"qrc:/ui/mmMainWindow.qml"⟩ = .ok v → tk.showView v = .error e →
      (MainWindow.MainWindow tk app w).1 = .error e) ∧
    (∀ v v', tk.newQQuickView ⟨"qrc:/ui/mmMainWindow.qml"⟩ = .ok v → tk.showView v = .ok v' →
      (MainWindow.MainWindow tk app w).1 = .ok w.windows.length) ∧
    (∀ e, (MainWindow.MainWindow tk app w).1 = .error e →
      (MainWindow.MainWindow tk app w).2.windows = w.windows) := by
  refine ⟨?_, ?_, ?_, ?_, ?_⟩
  · intro e he
    rcases construct_cases tk app w with ⟨e', hl, h⟩ | ⟨v, e', hv, hs, h⟩ | ⟨v, v', -, -, h⟩
    · rw [h] at he
      cases he
      exact Or.inl hl
    · rw [h] at he
      cases he
      exact Or.inr ⟨v, hv, hs⟩
    · rw [h] at he
      cases he
  · intro e hl
    rw [construct_load_error tk app w e hl]
  · intro v e hv hs
    rw [construct_show_error tk app w v e hv hs]
  · intro v v' hv hs
    rw [construct_ok tk app w v v' hv hs]
  · intro e he
    rcases construct_cases tk app w with ⟨e', -, h⟩ | ⟨v, e', -, -, h⟩ | ⟨v, v', -, -, h⟩
    · rw [h]
    · rw [h]
    · rw [h] at he
      cases he

/-- Witness of C5: an error raised by `show()` and an error raised by the
surface constructor both come out of the window constructor unchanged. -/
theorem no_error_path_of_its_own_witness :
    (MainWindow.MainWindow noScreen 0 world0).1 = .error "no screen" ∧
    (MainWindow.MainWindow missingResource 0 world0).1
      = .error ("cannot load " ++ "qrc:/ui/mmMainWindow.qml") :=
  ⟨(no_error_path_of_its_own noScreen 0 world0).2.2.1 _ _ rfl rfl,
    (no_error_path_of_its_own missingResource 0 world0).2.1 _ rfl⟩

/-- C8: the outcome of a construction is a function of the constructor
argument alone (for a given toolkit): started in any two worlds it builds the
same window state (application reference, view source, visibility), issues
the same requests and fails with the same errors; in particular two runs from
the same world give the same result. -/
theorem construction_deterministic (tk : Toolkit ε) (app : Nat) (w1 w2 : World App) :
    built (MainWindow.MainWindow tk app w1) = built (MainWindow.MainWindow tk app w2) ∧
    requested w1 (MainWindow.MainWindow tk app w1) =
      requested w2 (MainWindow.MainWindow tk app w2) ∧
    (∀ e, (MainWindow.MainWindow tk app w1).1 = .error e ↔
      (MainWindow.MainWindow tk app w2).1 = .error e) ∧
    (w1 = w2 → MainWindow.MainWindow tk app w1 = MainWindow.MainWindow tk app w2) := by
  refine ⟨?_, ?_, ?_, fun h => by rw [h]⟩
  · rcases construct_cases tk app w1 with ⟨e, hl, h⟩ | ⟨v, e, hv, hs, h⟩ | ⟨v, v', hv, hs, h⟩
    · rw [h, construct_load_error tk app w2 e hl]; rfl
    · rw [h, construct_show_error tk app w2 v e hv hs]; rfl
    · rw [built_ok tk app w1 v v' hv hs, built_ok tk app w2 v v' hv hs]
  · rcases construct_cases tk app w1 with ⟨e, hl, h⟩ | ⟨v, e, hv, hs, h⟩ | ⟨v, v', hv, hs, h⟩
    · rw [h, construct_load_error tk app w2 e hl]; simp [requested]
    · rw [h, construct_show_error tk app w2 v e hv hs]; simp [requested]
    · rw [h, construct_ok tk app w2 v v' hv hs]; simp [requested]
  · intro e
    rcases construct_cases tk app w1 with ⟨e', hl, h⟩ | ⟨v, e', hv, hs, h⟩ | ⟨v, v', hv, hs, h⟩
    · rw [h, construct_load_error tk app w2 e' hl]
    · rw [h, construct_show_error tk app w2 v e' hv hs]
    · rw [h, construct_ok tk app w2 v v' hv hs]
      constructor <;> intro he <;> cases he

/-- Witness of C8: a construction started in `world0` and one started in the
world the first one left build the same window state. -/
theorem construction_deterministic_witness :
    built (MainWindow.MainWindow (qt : Toolkit String) 0 world0) =
      built (MainWindow.MainWindow (qt : Toolkit String) 0
        (MainWindow.MainWindow (qt : Toolkit String) 0 world0).2) :=
  (construction_deterministic (qt : Toolkit String) 0 world0
    (MainWindow.MainWindow (qt : Toolkit String) 0 world0).2).1

end claims

end mm
